import Mathlib

/-!
Shallow embedding of the core of the ft_algo_bot options trading bot
(files portfolio.py, main.py, trading_controls.py), together with proofs
about the position ledger, the trailing-stop controller, the forced-exit
rule and the pause control gate.

Conventions of the embedding:

* Python ints are modelled by `Int`, Python floats (prices, P&L) by `Rat`.
  All the concrete values exercised here are small integers, on which
  Python float arithmetic is exact, so `Rat` is a faithful model.
* Python dicts keyed by symbol are modelled by association lists with
  unique keys (`lookupPos` / `setPos` / `erasePos` mirror `d[k]`,
  `d[k] = v` and `del d[k]`; insertion order is preserved as in a dict).
* A function that can return `None` returns an `Option`.
* Wall-clock datetimes are modelled by their weekday plus the time-of-day
  fields, which is all that `_should_force_exit` inspects
  (`datetime.replace` keeps the date, so comparing a datetime with its
  own `replace(hour=.., minute=.., second=0, microsecond=0)` is exactly a
  lexicographic comparison of the time-of-day fields).
-/

namespace FtAlgoBot

/-- Order side, `action` in the source: BUY or SELL. -/
inductive Action where
  | BUY
  | SELL
deriving DecidableEq, Repr

/-- Order type as passed to `place_order` (LIMIT or MARKET). -/
inductive OrderType where
  | MARKET
  | LIMIT
deriving DecidableEq, Repr

/-- Order status values used by `portfolio.py`. -/
inductive OrderStatus where
  | PENDING
  | FILLED
  | REJECTED
  | PLACED
deriving DecidableEq, Repr

/-- Position side stored in the ledger record (`side` key); a fresh
record is created with `side = None`. -/
inductive Side where
  | LONG
  | SHORT
deriving DecidableEq, Repr

/-- One per-symbol ledger record, the dict stored in
`PortfolioManager.positions[symbol]` (portfolio.py lines 332 to 341).
The timestamp and P&L bookkeeping keys do not influence any claim and are
omitted. -/
structure Position where
  quantity : Int
  entry_price : Rat
  current_price : Rat
  side : Option Side
deriving DecidableEq, Repr

/-- The mutable state of `PortfolioManager` touched by order execution:
the positions dict, the cash balance and the realized P&L accumulator. -/
structure PortfolioState where
  positions : List (String × Position)
  cash_balance : Rat
  realized_pnl : Rat
deriving DecidableEq, Repr

/-- Dict read `positions.get(symbol)`: first (unique) matching key. -/
def lookupPos : List (String × Position) → String → Option Position
  | [], _ => none
  | e :: rest, s => if e.1 = s then some e.2 else lookupPos rest s

/-- Dict write `positions[symbol] = p`: replace the (unique) entry with
that key in place, or append a new entry, as a Python dict does. -/
def setPos : List (String × Position) → String → Position → List (String × Position)
  | [], s, p => [(s, p)]
  | e :: rest, s, p => if e.1 = s then (s, p) :: rest else e :: setPos rest s p

/-- Dict delete `del positions[symbol]`: drop every entry with that key
(keys are unique in every reachable state, so this is `del`). -/
def erasePos : List (String × Position) → String → List (String × Position)
  | [], _ => []
  | e :: rest, s => if e.1 = s then erasePos rest s else e :: erasePos rest s

/-- `PortfolioManager._update_position_from_order` (portfolio.py lines
317 to 432), applied to a FILLED order with the given symbol, action,
filled quantity and average fill price.  The final
`if symbol in self.positions: positions[symbol].current_price = price`
is folded into each branch that keeps the record. -/
def update_position_from_order (ps : PortfolioState) (symbol : String)
    (action : Action) (quantity : Int) (price : Rat) : PortfolioState :=
  let position : Position :=
    match lookupPos ps.positions symbol with
    | some p => p
    | none => { quantity := 0, entry_price := 0, current_price := price, side := none }
  match action with
  | Action.BUY =>
    if 0 ≤ position.quantity then
      -- adding to a long position or opening a new long position
      let total_value := (position.quantity : Rat) * position.entry_price + (quantity : Rat) * price
      let total_quantity := position.quantity + quantity
      let entry := if 0 < total_quantity then total_value / (total_quantity : Rat) else price
      { ps with
          positions := setPos ps.positions symbol
            { quantity := total_quantity, entry_price := entry,
              current_price := price, side := some Side.LONG },
          cash_balance := ps.cash_balance - (quantity : Rat) * price }
    else if quantity ≤ (position.quantity.natAbs : Int) then
      -- partial or full cover of a short position
      let newq := position.quantity + quantity
      let realized := (quantity : Rat) * (position.entry_price - price)
      if newq = 0 then
        { ps with
            positions := erasePos ps.positions symbol,
            cash_balance := ps.cash_balance - (quantity : Rat) * price,
            realized_pnl := ps.realized_pnl + realized }
      else
        { ps with
            positions := setPos ps.positions symbol
              { position with quantity := newq, current_price := price },
            cash_balance := ps.cash_balance - (quantity : Rat) * price,
            realized_pnl := ps.realized_pnl + realized }
    else
      -- cover all short and go long
      let cover_quantity := (position.quantity.natAbs : Int)
      let long_quantity := quantity - cover_quantity
      let realized := (cover_quantity : Rat) * (position.entry_price - price)
      { ps with
          positions := setPos ps.positions symbol
            { quantity := long_quantity, entry_price := price,
              current_price := price, side := some Side.LONG },
          cash_balance := ps.cash_balance - (quantity : Rat) * price,
          realized_pnl := ps.realized_pnl + realized }
  | Action.SELL =>
    if position.quantity ≤ 0 then
      -- adding to a short position or opening a new short position
      let total_value := ((position.quantity.natAbs : Int) : Rat) * position.entry_price + (quantity : Rat) * price
      let total_quantity := (position.quantity.natAbs : Int) + quantity
      let entry := if 0 < total_quantity then total_value / (total_quantity : Rat) else price
      { ps with
          positions := setPos ps.positions symbol
            { quantity := -total_quantity, entry_price := entry,
              current_price := price, side := some Side.SHORT },
          cash_balance := ps.cash_balance + (quantity : Rat) * price }
    else if quantity ≤ position.quantity then
      -- partial or full sale of a long position
      let newq := position.quantity - quantity
      let realized := (quantity : Rat) * (price - position.entry_price)
      if newq = 0 then
        { ps with
            positions := erasePos ps.positions symbol,
            cash_balance := ps.cash_balance + (quantity : Rat) * price,
            realized_pnl := ps.realized_pnl + realized }
      else
        { ps with
            positions := setPos ps.positions symbol
              { position with quantity := newq, current_price := price },
            cash_balance := ps.cash_balance + (quantity : Rat) * price,
            realized_pnl := ps.realized_pnl + realized }
    else
      -- sell all long and go short
      let sell_quantity := position.quantity
      let short_quantity := quantity - sell_quantity
      let realized := (sell_quantity : Rat) * (price - position.entry_price)
      { ps with
          positions := setPos ps.positions symbol
            { quantity := -short_quantity, entry_price := price,
              current_price := price, side := some Side.SHORT },
          cash_balance := ps.cash_balance + (quantity : Rat) * price,
          realized_pnl := ps.realized_pnl + realized }

/-- `PortfolioManager._execute_paper_order` (portfolio.py lines 210 to
266): a BUY whose value exceeds the cash balance is marked REJECTED and
leaves the state unchanged; otherwise the order is marked FILLED with
`filled_quantity = quantity` and `avg_fill_price = price` and applied to
the ledger.  In BOTH cases the function returns the order id, so the
first component records the final order status while the id itself is
always produced. -/
def execute_paper_order (ps : PortfolioState) (symbol : String)
    (action : Action) (quantity : Int) (price : Rat) :
    OrderStatus × PortfolioState :=
  if action = Action.BUY ∧ ps.cash_balance < (quantity : Rat) * price then
    (OrderStatus.REJECTED, ps)
  else
    (OrderStatus.FILLED, update_position_from_order ps symbol action quantity price)

/-- `PortfolioManager.place_order` in paper-trading mode (portfolio.py
lines 160 to 208).  The guard on line 176 is
`if quantity <= 0 or price <= 0: return None`, independent of the order
type.  A `some st` result means an order id was returned and the order
ended in status `st`; `none` means `place_order` returned `None`. -/
def place_order (ps : PortfolioState) (symbol : String) (action : Action)
    (quantity : Int) (price : Rat) (order_type : OrderType) :
    Option OrderStatus × PortfolioState :=
  if quantity ≤ 0 ∨ price ≤ 0 then
    (none, ps)
  else
    let r := execute_paper_order ps symbol action quantity price
    (some r.1, r.2)

/-- Strategy lot size, `self.lot_size = 65` in `OptionsStrategyBot.__init__`. -/
def lot_size : Int := 65

/-- Trailing-stop activation threshold, `self.profit_threshold = 300`. -/
def profit_threshold : Rat := 300

/-- Trailing-stop buffer, `self.trailing_buffer = 50`. -/
def trailing_buffer : Rat := 50

/-- Re-entry delay after a stop hit, `self.re_entry_delay = 5` minutes. -/
def re_entry_delay : Rat := 5

/-- The trailing-stop fields of `OptionsStrategyBot`:
`highest_profit`, `trailing_sl_active`, `current_sl_level`. -/
structure TrailingState where
  highest_profit : Rat
  trailing_sl_active : Bool
  current_sl_level : Rat
deriving DecidableEq, Repr

/-- One strategy leg as stored in `self.positions['orders']`
(symbol, action, quantity). -/
structure Leg where
  symbol : String
  action : Action
  quantity : Int
deriving DecidableEq, Repr

/-- The `self.positions` strategy-tracking dict of `OptionsStrategyBot`
(set at main.py lines 339 to 344); only the `orders` list matters for
monitoring and closing. -/
structure StrategyPos where
  legs : List Leg
deriving DecidableEq, Repr

/-- The engine state mutated by the trading loop: the tracked
StrategyPosition (none when flat), the three trailing-stop fields and
`last_sl_hit_time` (a wall-clock stamp in minutes, none initially). -/
structure BotState where
  strategy : Option StrategyPos
  highest_profit : Rat
  trailing_sl_active : Bool
  current_sl_level : Rat
  last_sl_hit : Option Rat
deriving DecidableEq, Repr

/-- The trailing-stop slice of `_monitor_existing_positions` (main.py
lines 412 to 433), as a function of the previous trailing state and the
current combined P&L.  Returns the updated state and the breach flag
(`current_pnl <= self.current_sl_level` after the update); on a breach
the caller resets the state via `_close_all_strategy_positions`. -/
def trailing_update (ts : TrailingState) (current_pnl : Rat) : TrailingState × Bool :=
  let highest_profit := if ts.highest_profit < current_pnl then current_pnl else ts.highest_profit
  let activate : Bool := ts.trailing_sl_active = false ∧ profit_threshold ≤ current_pnl
  let trailing_sl_active := if activate then true else ts.trailing_sl_active
  let current_sl_level := if activate then current_pnl - trailing_buffer else ts.current_sl_level
  if trailing_sl_active then
    let new_sl_level := highest_profit - trailing_buffer
    let updated_sl := if current_sl_level < new_sl_level then new_sl_level else current_sl_level
    ({ highest_profit := highest_profit, trailing_sl_active := trailing_sl_active,
       current_sl_level := updated_sl }, current_pnl ≤ updated_sl)
  else
    ({ highest_profit := highest_profit, trailing_sl_active := trailing_sl_active,
       current_sl_level := current_sl_level }, false)

/-- The entry price used by `_calculate_strategy_pnl` (main.py line
462): `position_info.get('avg_price', 0)`.  The ledger position dicts
built in portfolio.py never contain an `avg_price` key (the key is
`entry_price`, portfolio.py lines 335, 350, 381, 391, 422), so this
`.get` always returns the default 0. -/
def position_avg_price (_position_info : Position) : Rat := 0

/-- `OptionsStrategyBot._calculate_strategy_pnl` (main.py lines 440 to
476).  Legs whose market data is absent, or for which the ledger has no
position, are skipped by `continue`; the remaining legs are summed and
the total is returned.  `None` is returned only when an exception
escapes, which has no counterpart in this embedding, so the result is
always `some`. -/
def calculate_strategy_pnl (legs : List Leg) (market_data : String → Option Rat)
    (positions : List (String × Position)) : Option Rat :=
  some (legs.foldl
    (fun total_pnl leg =>
      match market_data leg.symbol with
      | none => total_pnl
      | some current_price =>
        match lookupPos positions leg.symbol with
        | none => total_pnl
        | some position_info =>
          let entry_price := position_avg_price position_info
          let pnl := match leg.action with
            | Action.BUY => (current_price - entry_price) * (leg.quantity : Rat)
            | Action.SELL => (entry_price - current_price) * (leg.quantity : Rat)
          total_pnl + pnl)
    0)

/-- `OptionsStrategyBot._close_all_strategy_positions` (main.py lines
478 to 513): place the opposite MARKET order (price 0.0) for every
tracked leg, then clear the strategy dict and reset the three
trailing-stop fields.  `last_sl_hit_time` is not touched here; the
breach branch of the monitor sets it afterwards. -/
def close_all_strategy_positions (bs : BotState) (pf : PortfolioState) :
    BotState × PortfolioState :=
  let legs := match bs.strategy with
    | some st => st.legs
    | none => []
  let pf2 := legs.foldl
    (fun acc leg =>
      let close_action := match leg.action with
        | Action.BUY => Action.SELL
        | Action.SELL => Action.BUY
      (place_order acc leg.symbol close_action leg.quantity 0 OrderType.MARKET).2)
    pf
  ({ bs with strategy := none, highest_profit := 0, trailing_sl_active := false,
             current_sl_level := 0 }, pf2)

/-- `OptionsStrategyBot._monitor_existing_positions` (main.py lines 400
to 438): no-op when flat or when the P&L computation yields `None`;
otherwise run the trailing-stop update and, on a breach, close
everything and stamp `last_sl_hit_time` with the current wall clock. -/
def monitor_existing_positions (now : Rat) (market_data : String → Option Rat)
    (bs : BotState) (pf : PortfolioState) : BotState × PortfolioState :=
  match bs.strategy with
  | none => (bs, pf)
  | some st =>
    match calculate_strategy_pnl st.legs market_data pf.positions with
    | none => (bs, pf)
    | some current_pnl =>
      let r := trailing_update
        { highest_profit := bs.highest_profit, trailing_sl_active := bs.trailing_sl_active,
          current_sl_level := bs.current_sl_level } current_pnl
      let bs1 := { bs with highest_profit := r.1.highest_profit,
                           trailing_sl_active := r.1.trailing_sl_active,
                           current_sl_level := r.1.current_sl_level }
      if r.2 then
        let c := close_all_strategy_positions bs1 pf
        ({ c.1 with last_sl_hit := some now }, c.2)
      else (bs1, pf)

/-- `OptionsStrategyBot._should_enter_new_position` (main.py lines 259
to 271): no entry while a strategy is tracked, and none within
`re_entry_delay` minutes of the last stop hit. -/
def should_enter_new_position (now : Rat) (bs : BotState) : Bool :=
  if bs.strategy.isSome then false
  else
    match bs.last_sl_hit with
    | none => true
    | some t => if now - t < re_entry_delay then false else true

/-- `OptionsStrategyBot._enter_options_strategy` (main.py lines 273 to
356), with the four option symbols (the output of
`_get_option_symbols`) passed in.  All four legs are placed as MARKET
orders with price 0.0 and quantity `lot_size`; an order counts as
successful when `place_order` returned a non-None id, and the strategy
dict is recorded exactly when all four ids were collected. -/
def enter_options_strategy (bs : BotState) (pf : PortfolioState)
    (buy_ce sell_ce buy_pe sell_pe : String) : BotState × PortfolioState :=
  let orders : List Leg :=
    [ { symbol := buy_ce, action := Action.BUY, quantity := lot_size },
      { symbol := sell_ce, action := Action.SELL, quantity := lot_size },
      { symbol := buy_pe, action := Action.BUY, quantity := lot_size },
      { symbol := sell_pe, action := Action.SELL, quantity := lot_size } ]
  let r := orders.foldl
    (fun (acc : Nat × PortfolioState) leg =>
      let pr := place_order acc.2 leg.symbol leg.action leg.quantity 0 OrderType.MARKET
      (if pr.1.isSome then acc.1 + 1 else acc.1, pr.2))
    (0, pf)
  if r.1 = 4 then
    ({ bs with strategy := some { legs := orders }, highest_profit := 0,
               trailing_sl_active := false, current_sl_level := 0 }, r.2)
  else (bs, r.2)

/-- `OptionsStrategyBot._force_exit_all_positions` (main.py lines 515 to
519). -/
def force_exit_all_positions (bs : BotState) (pf : PortfolioState) :
    BotState × PortfolioState :=
  match bs.strategy with
  | some _ => close_all_strategy_positions bs pf
  | none => (bs, pf)

/-- One iteration of `OptionsStrategyBot._trading_loop` (main.py lines
163 to 208).  The pause check, the trading-hours check and the
forced-exit check are taken as already-evaluated booleans (they are
settled by `_is_trading_paused`, `_is_trading_time` and
`_should_force_exit`, the last of which is embedded separately as
`should_force_exit`); `nifty_ltp` is the result of `_get_nifty_ltp` and
the four option symbols are the result of `_get_option_symbols`.  A
`continue` branch leaves the whole state untouched. -/
def trading_tick (paused in_trading_time forced_exit : Bool)
    (nifty_ltp : Option Rat) (now : Rat) (market_data : String → Option Rat)
    (buy_ce sell_ce buy_pe sell_pe : String)
    (bs : BotState) (pf : PortfolioState) : BotState × PortfolioState :=
  if paused then (bs, pf)
  else if in_trading_time = false then (bs, pf)
  else if forced_exit then force_exit_all_positions bs pf
  else
    match nifty_ltp with
    | none => (bs, pf)
    | some _ltp =>
      let m := monitor_existing_positions now market_data bs pf
      if should_enter_new_position now m.1 then
        enter_options_strategy m.1 m.2 buy_ce sell_ce buy_pe sell_pe
      else m

/-- A Python datetime, reduced to the fields `_should_force_exit`
consults: `weekday()` (0 = Monday, ..., 6 = Sunday, 3 = Thursday) and
the time-of-day components.  `replace(hour=h, minute=m, second=0,
microsecond=0)` keeps the date, so `current_time >= exit_time` on the
replaced value is exactly the lexicographic comparison of
(hour, minute, second, microsecond) against (h, m, 0, 0). -/
structure PyDateTime where
  weekday : Nat
  hour : Nat
  minute : Nat
  second : Nat
  microsecond : Nat
deriving DecidableEq, Repr

/-- `current_time >= current_time.replace(hour=ch, minute=cm, second=0,
microsecond=0)`: lexicographic time-of-day comparison against the
cutoff (ch, cm, 0, 0). -/
def cutoff_le_time (ch cm : Nat) (t : PyDateTime) : Bool :=
  decide (ch < t.hour ∨ (ch = t.hour ∧ (cm < t.minute ∨ (cm = t.minute ∧
    (0 < t.second ∨ (0 = t.second ∧ 0 ≤ t.microsecond))))))

/-- `self.expiry_exit_hour = 14` (2:00 PM). -/
def expiry_exit_hour : Nat := 14

/-- `self.expiry_exit_minute = 0`. -/
def expiry_exit_minute : Nat := 0

/-- `OptionsStrategyBot._should_force_exit` (main.py lines 227 to 241):
False unless the weekday is Thursday (3); on Thursday, true exactly when
the current time is at or past the 14:00 exit time built by
`replace`. -/
def should_force_exit (t : PyDateTime) : Bool :=
  if t.weekday ≠ 3 then false
  else cutoff_le_time expiry_exit_hour expiry_exit_minute t

/-- Time of day expressed in microseconds since midnight, the linear
clock used to state the forced-exit claim independently of the
lexicographic comparison in the code. -/
def microseconds_of_day (t : PyDateTime) : Nat :=
  ((t.hour * 60 + t.minute) * 60 + t.second) * 1000000 + t.microsecond

/-- `OptionsStrategyBot._is_trading_paused` (main.py lines 210 to 212):
the per-tick pause decision is `os.path.exists('trading_pause.txt')`.
A filesystem is modelled by the existence predicate of its file
names. -/
def is_trading_paused (fs : String → Bool) : Bool := fs "trading_pause.txt"

/-- `TradingControls.pause_trading` (trading_controls.py lines 29 to
54): creates the pause file (its JSON contents are irrelevant to the
existence checks). -/
def pause_trading (fs : String → Bool) : String → Bool :=
  fun n => if n = "trading_pause.txt" then true else fs n

/-- `TradingControls.resume_trading` (trading_controls.py lines 56 to
74): removes the pause file when present; when absent the filesystem is
already in the resulting state. -/
def resume_trading (fs : String → Bool) : String → Bool :=
  fun n => if n = "trading_pause.txt" then false else fs n

/-- `create_emergency_stop` (trading_controls.py lines 144 to 164):
pauses trading via `pause_trading` and additionally creates the
EMERGENCY_STOP.txt marker file. -/
def create_emergency_stop (fs : String → Bool) : String → Bool :=
  fun n => if n = "EMERGENCY_STOP.txt" then true else pause_trading fs n

/-- One fill applied to the ledger for a single symbol: the action, the
filled quantity and the average fill price of a FILLED order, the
fields `_update_position_from_order` reads. -/
structure Fill where
  action : Action
  quantity : Int
  price : Rat
deriving DecidableEq, Repr

/-- The signed quantity delta of a fill: +quantity for a BUY,
-quantity for a SELL. -/
def fill_delta (f : Fill) : Int :=
  match f.action with
  | Action.BUY => f.quantity
  | Action.SELL => -f.quantity

/-- Apply a sequence of fills on one symbol through
`_update_position_from_order`, in order. -/
def apply_fills (sym : String) (ps : PortfolioState) (fills : List Fill) :
    PortfolioState :=
  fills.foldl (fun acc f => update_position_from_order acc sym f.action f.quantity f.price) ps

/-- Sum of the signed fill deltas of a fill sequence. -/
def net_quantity (fills : List Fill) : Int := (fills.map fill_delta).sum

/-- The signed quantity the ledger records for a symbol; 0 when the
record is absent. -/
def signed_qty (ps : PortfolioState) (sym : String) : Int :=
  match lookupPos ps.positions sym with
  | some pos => pos.quantity
  | none => 0

end FtAlgoBot

namespace FtAlgoBot

/-- Helper: the pattern `if a < b then b else a` used by the trailing
stop computes the maximum. -/
theorem if_lt_then_else_eq_max (a b : Rat) : (if a < b then b else a) = max a b := by
  rcases le_or_lt b a with h | h
  · rw [if_neg (not_lt.mpr h), max_eq_left h]
  · rw [if_pos h, max_eq_right h.le]

/-- C3: with threshold 300 and buffer 50, the combined-P&L sequence
[0, 320, 380, 340, 290] from the inactive initial state leaves the
controller inactive at 0, activates it at 320 with stop level 270,
raises the stop to 330 after 380, leaves it at 330 at 340, and signals
a breach at 290 since 290 is at or below 330. -/
theorem C3_trailing_stop_sequence :
    trailing_update { highest_profit := 0, trailing_sl_active := false, current_sl_level := 0 } 0
        = ({ highest_profit := 0, trailing_sl_active := false, current_sl_level := 0 }, false)
      ∧ trailing_update { highest_profit := 0, trailing_sl_active := false, current_sl_level := 0 } 320
        = ({ highest_profit := 320, trailing_sl_active := true, current_sl_level := 270 }, false)
      ∧ trailing_update { highest_profit := 320, trailing_sl_active := true, current_sl_level := 270 } 380
        = ({ highest_profit := 380, trailing_sl_active := true, current_sl_level := 330 }, false)
      ∧ trailing_update { highest_profit := 380, trailing_sl_active := true, current_sl_level := 330 } 340
        = ({ highest_profit := 380, trailing_sl_active := true, current_sl_level := 330 }, false)
      ∧ (trailing_update { highest_profit := 380, trailing_sl_active := true, current_sl_level := 330 } 290).2
        = true := by
  refine ⟨?_, ?_, ?_, ?_, ?_⟩ <;> norm_num [trailing_update, profit_threshold, trailing_buffer]

/-- C1: the claim states that an order with quantity > 0, type MARKET and
price 0 is not rejected as invalid and gets an order identifier.  The
source guard `quantity <= 0 or price <= 0` rejects every price-0 order
regardless of type: evaluating `place_order` at the exact call the bot
itself issues for each strategy leg (quantity 65, price 0.0, MARKET,
main.py lines 323 to 329) returns `None` and leaves the portfolio
untouched. -/
theorem C1_market_order_with_zero_price_returns_none :
    place_order { positions := [], cash_balance := 100000, realized_pnl := 0 }
      "NSE:NIFTY25SEP25 19750CE" Action.BUY 65 0 OrderType.MARKET
      = (none, { positions := [], cash_balance := 100000, realized_pnl := 0 }) := by
  decide

/-- C7: buying 10 units at 100 and then 10 units at 120 on an empty
ledger yields a single position of quantity 20 with quantity-weighted
average entry price 110. -/
theorem C7_weighted_average_of_two_buys :
    let ps0 : PortfolioState := { positions := [], cash_balance := 100000, realized_pnl := 0 }
    let ps1 := update_position_from_order ps0 "SYM" Action.BUY 10 100
    let ps2 := update_position_from_order ps1 "SYM" Action.BUY 10 120
    (lookupPos ps2.positions "SYM").map Position.quantity = some 20 ∧
      (lookupPos ps2.positions "SYM").map Position.entry_price = some 110 := by
  intro ps0 ps1 ps2
  constructor
  · show (lookupPos ps2.positions "SYM").map Position.quantity = some 20
    simp only [ps2, ps1, ps0, update_position_from_order, lookupPos, setPos]
    norm_num [lookupPos, setPos]
  · show (lookupPos ps2.positions "SYM").map Position.entry_price = some 110
    simp only [ps2, ps1, ps0, update_position_from_order, lookupPos, setPos]
    norm_num [lookupPos, setPos]

/-- C8: applying a SELL fill of 15 units at any fill price `p` to a long
position of 10 units at average price 100 realizes exactly
`10 * (p - 100)` and leaves a short position of 5 units whose entry
price is the fill price. -/
theorem C8_sell_through_long_flips_to_short (p c r cp : Rat) :
    let ps : PortfolioState :=
      { positions := [("SYM", { quantity := 10, entry_price := 100,
                                current_price := cp, side := some Side.LONG })],
        cash_balance := c, realized_pnl := r }
    let ps2 := update_position_from_order ps "SYM" Action.SELL 15 p
    lookupPos ps2.positions "SYM"
        = some { quantity := -5, entry_price := p, current_price := p,
                 side := some Side.SHORT } ∧
      ps2.realized_pnl = r + 10 * (p - 100) := by
  intro ps ps2
  constructor
  · show lookupPos ps2.positions "SYM" = _
    simp only [ps2, ps, update_position_from_order, lookupPos]
    norm_num [setPos, lookupPos]
  · show ps2.realized_pnl = _
    simp only [ps2, ps, update_position_from_order, lookupPos]
    norm_num

/-- C6: while the trailing stop is active, a monitoring step with any
current combined P&L sets the new stop level to
max(previous stop level, max(previous highest, current P&L) - buffer),
which is never below the previous stop level, and the breach signal
fires exactly when the current P&L is at or below that updated
level. -/
theorem C6_stop_level_non_decreasing (ts : TrailingState) (current_pnl : Rat)
    (h : ts.trailing_sl_active = true) :
    (trailing_update ts current_pnl).1.current_sl_level
        = max ts.current_sl_level (max ts.highest_profit current_pnl - trailing_buffer)
      ∧ ts.current_sl_level ≤ (trailing_update ts current_pnl).1.current_sl_level
      ∧ ((trailing_update ts current_pnl).2 = true
          ↔ current_pnl ≤ (trailing_update ts current_pnl).1.current_sl_level) := by
  have hsl : (trailing_update ts current_pnl).1.current_sl_level
      = max ts.current_sl_level (max ts.highest_profit current_pnl - trailing_buffer) := by
    simp only [trailing_update, h, Bool.true_eq_false, false_and, decide_False,
      Bool.false_eq_true, if_false, if_true]
    rw [if_lt_then_else_eq_max, if_lt_then_else_eq_max]
  refine ⟨hsl, hsl ▸ le_max_left _ _, ?_⟩
  have hb : (trailing_update ts current_pnl).2
      = decide (current_pnl ≤ (trailing_update ts current_pnl).1.current_sl_level) := by
    simp only [trailing_update, h, Bool.true_eq_false, false_and, decide_False,
      Bool.false_eq_true, if_false, if_true]
  rw [hb, decide_eq_true_eq]

/-- C6 witness: the active state reached after the 380 tick of the C3
sequence, fed 340. -/
theorem C6_stop_level_non_decreasing_witness :
    ({ highest_profit := 380, trailing_sl_active := true, current_sl_level := 330 }
        : TrailingState).trailing_sl_active = true
    ∧ ((trailing_update
          { highest_profit := 380, trailing_sl_active := true, current_sl_level := 330 }
          340).1.current_sl_level
        = max 330 (max 380 340 - trailing_buffer)
      ∧ (330 : Rat) ≤ (trailing_update
          { highest_profit := 380, trailing_sl_active := true, current_sl_level := 330 }
          340).1.current_sl_level
      ∧ ((trailing_update
          { highest_profit := 380, trailing_sl_active := true, current_sl_level := 330 }
          340).2 = true
          ↔ (340 : Rat) ≤ (trailing_update
              { highest_profit := 380, trailing_sl_active := true, current_sl_level := 330 }
              340).1.current_sl_level)) :=
  ⟨rfl, C6_stop_level_non_decreasing
    { highest_profit := 380, trailing_sl_active := true, current_sl_level := 330 } 340 rfl⟩

/-- C2: evidence against the claim in the code.  First, the engine's
success test (`if order_id:` at main.py line 331) cannot distinguish
FILLED from REJECTED legs: a paper BUY of 10 units at 50 with only 100
cash is REJECTED for insufficient funds, yet `_execute_paper_order`
still returns the order id, so `place_order` yields a non-None id for
a REJECTED order.  Second, because of the price-0 guard in
`place_order`, every strategy leg the engine actually issues (MARKET,
price 0.0) returns `None`, so `_enter_options_strategy` never collects
four ids and never records the strategy dict: the Entering-to-Active
transition claimed by the spec is unreachable. -/
theorem C2_rejected_leg_counts_as_success :
    execute_paper_order
        { positions := [], cash_balance := 100, realized_pnl := 0 } "X" Action.BUY 10 50
        = (OrderStatus.REJECTED, { positions := [], cash_balance := 100, realized_pnl := 0 })
      ∧ (place_order { positions := [], cash_balance := 100, realized_pnl := 0 }
          "X" Action.BUY 10 50 OrderType.LIMIT).1 = some OrderStatus.REJECTED
      ∧ (enter_options_strategy
          { strategy := none, highest_profit := 0, trailing_sl_active := false,
            current_sl_level := 0, last_sl_hit := none }
          { positions := [], cash_balance := 100000, realized_pnl := 0 }
          "BCE" "SCE" "BPE" "SPE").1.strategy = none := by
  refine ⟨?_, ?_, ?_⟩
  · norm_num [execute_paper_order]
  · norm_num [place_order, execute_paper_order]
  · norm_num [enter_options_strategy, place_order, lot_size]

/-- C5 counterexample: a tick with every gate open, the Nifty reference
price available, a tracked four-leg strategy, but market data present
only for the first leg (absent for the other three) is NOT skipped: the
monitor computes a partial P&L of (10 - 0) * 65 = 650 from the one leg
with data (the entry price read by `_calculate_strategy_pnl` is the
always-0 `avg_price` default) and mutates the trailing-stop state
(highest profit 0 to 650, activation, stop level 600), contradicting
the claim that a tick with missing market data leaves all state
unchanged. -/
theorem C5_counterexample_partial_data_mutates :
    let legs : List Leg :=
      [ { symbol := "L1", action := Action.BUY, quantity := 65 },
        { symbol := "L2", action := Action.SELL, quantity := 65 },
        { symbol := "L3", action := Action.BUY, quantity := 65 },
        { symbol := "L4", action := Action.SELL, quantity := 65 } ]
    let bs : BotState :=
      { strategy := some { legs := legs }, highest_profit := 0,
        trailing_sl_active := false, current_sl_level := 0, last_sl_hit := none }
    let pf : PortfolioState :=
      { positions := [("L1", { quantity := 65, entry_price := 3,
                               current_price := 3, side := some Side.LONG })],
        cash_balance := 100000, realized_pnl := 0 }
    let md : String → Option Rat := fun s => if s = "L1" then some 10 else none
    let r := trading_tick false true false (some 19500) 600 md "BCE" "SCE" "BPE" "SPE" bs pf
    r.1.highest_profit = 650 ∧ r.1.trailing_sl_active = true
      ∧ r.1.current_sl_level = 600 ∧ bs.highest_profit = 0 := by
  intro legs bs pf md r
  have hpnl : calculate_strategy_pnl legs md pf.positions = some 650 := by
    simp [legs, md, pf, calculate_strategy_pnl, lookupPos, position_avg_price]
    norm_num
  have hr : r = ({ strategy := some { legs := legs }, highest_profit := 650,
                   trailing_sl_active := true, current_sl_level := 600,
                   last_sl_hit := none }, pf) := by
    simp [r, trading_tick, monitor_existing_positions, bs, hpnl, trailing_update,
      profit_threshold, trailing_buffer, should_enter_new_position]
    norm_num
    intro h
    exact Option.noConfusion h
  rw [hr]
  exact ⟨rfl, rfl, rfl, rfl⟩

/-- C5 amended: when the Nifty reference price is missing the tick is
indeed skipped with no mutation of engine or ledger state; but market
data missing for only some (or even all) of the four legs does not skip
anything: `_calculate_strategy_pnl` always returns a total (legs
without market data or without a ledger position are silently dropped
from the sum), and the monitor updates the trailing state from that
partial total. -/
theorem C5_missing_reference_price_skips_tick
    (now : Rat) (md : String → Option Rat) (a b c d : String)
    (bs : BotState) (pf : PortfolioState) :
    trading_tick false true false none now md a b c d bs pf = (bs, pf)
      ∧ ∀ (legs : List Leg) (positions : List (String × Position)),
          (calculate_strategy_pnl legs md positions).isSome = true := by
  exact ⟨rfl, fun _ _ => rfl⟩

/-- C10: the per-tick pause decision reads only trading_pause.txt:
overriding the existence of EMERGENCY_STOP.txt to any value never
changes `_is_trading_paused`; consequently, after an emergency stop,
removing the pause file alone (resume_trading) re-enables trading even
though the emergency marker file still exists. -/
theorem C10_pause_check_ignores_emergency_marker
    (fs : String → Bool) (e : Bool) :
    is_trading_paused (fun n => if n = "EMERGENCY_STOP.txt" then e else fs n)
        = is_trading_paused fs
      ∧ is_trading_paused (resume_trading (create_emergency_stop fs)) = false
      ∧ create_emergency_stop fs "EMERGENCY_STOP.txt" = true := by
  refine ⟨?_, ?_, ?_⟩ <;>
    simp [is_trading_paused, resume_trading, create_emergency_stop, pause_trading]

/-- C4: the forced-exit rule fires exactly on the designated expiry
weekday (Thursday, weekday 3) at or after the 14:00 cutoff measured on
the linear wall clock (50400000000 microseconds since midnight): on any
other weekday it never fires, and on Thursday it does not fire before
the cutoff. -/
theorem C4_force_exit_iff_thursday_after_cutoff (t : PyDateTime)
    (hvalid : t.hour ≤ 23 ∧ t.minute ≤ 59 ∧ t.second ≤ 59 ∧ t.microsecond ≤ 999999) :
    should_force_exit t = true
      ↔ (t.weekday = 3 ∧ 50400000000 ≤ microseconds_of_day t) := by
  obtain ⟨hh, hm, hs, hu⟩ := hvalid
  unfold should_force_exit cutoff_le_time expiry_exit_hour expiry_exit_minute
  split_ifs with hw
  · simp only [Bool.false_eq_true, false_iff]
    intro hc
    exact hw hc.1
  · push_neg at hw
    simp only [decide_eq_true_eq, microseconds_of_day, hw, true_and]
    omega

/-- C4 witness: Thursday exactly at 14:00:00.000000. -/
theorem C4_force_exit_witness :
    ((14 : Nat) ≤ 23 ∧ (0 : Nat) ≤ 59 ∧ (0 : Nat) ≤ 59 ∧ (0 : Nat) ≤ 999999)
    ∧ (should_force_exit
          { weekday := 3, hour := 14, minute := 0, second := 0, microsecond := 0 } = true
        ↔ ((3 : Nat) = 3 ∧ 50400000000 ≤ microseconds_of_day
            { weekday := 3, hour := 14, minute := 0, second := 0, microsecond := 0 })) :=
  ⟨by decide, C4_force_exit_iff_thursday_after_cutoff
    { weekday := 3, hour := 14, minute := 0, second := 0, microsecond := 0 } (by decide)⟩

/-- Helper: a dict write is seen by a read of the same key. -/
theorem lookupPos_setPos_self (m : List (String × Position)) (s : String) (p : Position) :
    lookupPos (setPos m s p) s = some p := by
  induction m with
  | nil => simp [setPos, lookupPos]
  | cons e rest ih =>
    by_cases h : e.1 = s
    · simp [setPos, h, lookupPos]
    · simp [setPos, h, lookupPos, ih]

/-- Helper: a dict delete removes the key from view. -/
theorem lookupPos_erasePos_self (m : List (String × Position)) (s : String) :
    lookupPos (erasePos m s) s = none := by
  induction m with
  | nil => simp [erasePos, lookupPos]
  | cons e rest ih =>
    by_cases h : e.1 = s
    · simp [erasePos, h, ih]
    · simp [erasePos, h, lookupPos, ih]

/-- Helper: one fill with positive quantity moves the recorded signed
quantity by exactly its signed delta, and the record is deleted exactly
when the new signed quantity is zero. -/
theorem update_signed_qty (ps : PortfolioState) (sym : String) (f : Fill)
    (hq : 0 < f.quantity) :
    signed_qty (update_position_from_order ps sym f.action f.quantity f.price) sym
        = signed_qty ps sym + fill_delta f
      ∧ (lookupPos (update_position_from_order ps sym f.action f.quantity f.price).positions sym
            = none
          ↔ signed_qty ps sym + fill_delta f = 0) := by
  obtain ⟨a, q, pr⟩ := f
  simp only at hq
  cases hl : lookupPos ps.positions sym with
  | none =>
    cases a <;>
      simp only [update_position_from_order, hl, fill_delta, signed_qty] <;>
      split_ifs <;>
      simp_all [lookupPos_setPos_self, lookupPos_erasePos_self, -Int.natCast_natAbs] <;>
      omega
  | some pos =>
    cases a <;>
      simp only [update_position_from_order, hl, fill_delta, signed_qty] <;>
      split_ifs <;>
      simp_all [lookupPos_setPos_self, lookupPos_erasePos_self, -Int.natCast_natAbs] <;>
      omega

/-- Helper: the fold invariant behind C9, for any start state whose
record (when present) has non-zero quantity. -/
theorem apply_fills_invariant (sym : String) (fills : List Fill) :
    ∀ ps : PortfolioState,
      (∀ f ∈ fills, 0 < f.quantity) →
      (∀ pos, lookupPos ps.positions sym = some pos → pos.quantity ≠ 0) →
      signed_qty (apply_fills sym ps fills) sym = signed_qty ps sym + net_quantity fills
        ∧ (lookupPos (apply_fills sym ps fills).positions sym = none
            ↔ signed_qty ps sym + net_quantity fills = 0) := by
  induction fills with
  | nil =>
    intro ps _ hwf
    refine ⟨by simp [apply_fills, net_quantity], ?_⟩
    simp only [apply_fills, List.foldl, net_quantity, List.map, List.sum_nil, add_zero]
    constructor
    · intro h
      simp [signed_qty, h]
    · intro h
      cases hl : lookupPos ps.positions sym with
      | none => rfl
      | some pos =>
        exfalso
        apply hwf pos hl
        simpa [signed_qty, hl] using h
  | cons f fs ih =>
    intro ps hq hwf
    have hstep := update_signed_qty ps sym f (hq f (List.mem_cons_self f fs))
    have happ : apply_fills sym ps (f :: fs)
        = apply_fills sym (update_position_from_order ps sym f.action f.quantity f.price) fs := rfl
    have hwf2 : ∀ pos,
        lookupPos (update_position_from_order ps sym f.action f.quantity f.price).positions sym
          = some pos → pos.quantity ≠ 0 := by
      intro pos hpos hzero
      have hsq : signed_qty (update_position_from_order ps sym f.action f.quantity f.price) sym
          = 0 := by
        simp [signed_qty, hpos, hzero]
      have h0 : signed_qty ps sym + fill_delta f = 0 := by
        rw [← hstep.1, hsq]
      have := hstep.2.mpr h0
      rw [hpos] at this
      exact Option.noConfusion this
    have hrest := ih (update_position_from_order ps sym f.action f.quantity f.price)
      (fun g hg => hq g (List.mem_cons_of_mem f hg)) hwf2
    have hnet : net_quantity (f :: fs) = fill_delta f + net_quantity fs := by
      simp [net_quantity]
    refine ⟨?_, ?_⟩
    · rw [happ, hrest.1, hstep.1, hnet]
      ring
    · rw [happ, hrest.2, hstep.1, hnet]
      constructor <;> intro h <;> omega

/-- C9: for every sequence of BUY/SELL fills with positive quantities
applied to a single symbol starting from an empty ledger, the recorded
signed quantity equals the sum of the signed fill deltas (+quantity for
BUY, -quantity for SELL), and the record is removed exactly when that
sum is zero.  Quantifying over all fill sequences covers the state
after each fill of any longer sequence. -/
theorem C9_signed_quantity_tracks_fill_deltas (sym : String) (c r : Rat)
    (fills : List Fill) (h : ∀ f ∈ fills, 0 < f.quantity) :
    (∀ pos,
        lookupPos (apply_fills sym
            { positions := [], cash_balance := c, realized_pnl := r } fills).positions sym
          = some pos →
        pos.quantity = net_quantity fills ∧ net_quantity fills ≠ 0)
      ∧ (lookupPos (apply_fills sym
            { positions := [], cash_balance := c, realized_pnl := r } fills).positions sym
          = none
          ↔ net_quantity fills = 0) := by
  have hwf : ∀ pos,
      lookupPos (PortfolioState.mk [] c r).positions sym = some pos → pos.quantity ≠ 0 := by
    intro pos hpos
    exact Option.noConfusion hpos
  have hinv := apply_fills_invariant sym fills { positions := [], cash_balance := c, realized_pnl := r } h hwf
  have hz : signed_qty { positions := [], cash_balance := c, realized_pnl := r } sym = 0 := rfl
  rw [hz, zero_add] at hinv
  refine ⟨?_, hinv.2⟩
  intro pos hpos
  constructor
  · have := hinv.1
    simpa [signed_qty, hpos] using this
  · intro hnz
    have := hinv.2.mpr hnz
    rw [hpos] at this
    exact Option.noConfusion this

/-- C9 witness: the fills BUY 10 at 100 then SELL 4 at 120 leave a
record of signed quantity 6 = 10 - 4. -/
theorem C9_signed_quantity_witness :
    (∀ f ∈ [Fill.mk Action.BUY 10 100, Fill.mk Action.SELL 4 120], 0 < f.quantity)
    ∧ ((∀ pos,
          lookupPos (apply_fills "SYM"
              { positions := [], cash_balance := 0, realized_pnl := 0 }
              [Fill.mk Action.BUY 10 100, Fill.mk Action.SELL 4 120]).positions "SYM"
            = some pos →
          pos.quantity = net_quantity [Fill.mk Action.BUY 10 100, Fill.mk Action.SELL 4 120]
            ∧ net_quantity [Fill.mk Action.BUY 10 100, Fill.mk Action.SELL 4 120] ≠ 0)
        ∧ (lookupPos (apply_fills "SYM"
              { positions := [], cash_balance := 0, realized_pnl := 0 }
              [Fill.mk Action.BUY 10 100, Fill.mk Action.SELL 4 120]).positions "SYM"
            = none
            ↔ net_quantity [Fill.mk Action.BUY 10 100, Fill.mk Action.SELL 4 120] = 0)) :=
  ⟨by decide, C9_signed_quantity_tracks_fill_deltas "SYM" 0 0
    [Fill.mk Action.BUY 10 100, Fill.mk Action.SELL 4 120] (by decide)⟩

end FtAlgoBot
